import Mathlib

/-!
Shallow embedding of `scripts/pomodoro.py` (Pomodoro Visualizer CLI).

The datastore (SQLite) is modelled as in the spec's own scoping: a thin
external collaborator providing atomic single-statement reads/writes over
three tables, represented here as Lean lists of records.  SQL statements
are translated to the evident list operations (INSERT = append, UPDATE
WHERE id = map over matching rows, SELECT ... WHERE = filter, INSERT OR
REPLACE = upsert), except that SQLite column typing is modelled where the
program runs into it: `sessions.id` is declared `INTEGER PRIMARY KEY
AUTOINCREMENT`, so binding a non-integer TEXT id there raises an uncaught
`sqlite3.IntegrityError` (datatype mismatch) and the uncommitted
transaction is rolled back.  Timestamps are integer seconds; the calendar date
string derived from a timestamp is passed as a parameter (it comes from
the environment's clock/locale).  Python float arithmetic in the report
formulas is modelled as exact rational arithmetic with the truncating
`int()` conversion made explicit.
-/

namespace Pomodoro

/-- A row of the `sessions` table (schema in `init_db`). -/
structure Session where
  id : String
  start_time : Int
  end_time : Option Int
  planned_duration : Int
  actual_duration : Option Int
  completed : Bool
  task_id : Option String
  interruption_reason : Option String
  date : String
deriving Repr, DecidableEq

/-- A row of the `tasks` table. -/
structure Task where
  id : String
  name : String
  completed_pomodoros : Nat
  total_minutes : Int
deriving Repr, DecidableEq

/-- The three tables of the datastore. `config` is a key-value list with
unique keys maintained by upsert. -/
structure DB where
  sessions : List Session
  tasks : List Task
  config : List (String × String)
deriving Repr, DecidableEq

/-- The `.current_session.json` marker file contents; `none` means the file
does not exist. -/
structure Marker where
  id : String
  start_time : Int
  duration : Int
  task_id : Option String
  task_name : Option String
deriving Repr, DecidableEq

/-- Whole program state: datastore plus optional marker file. -/
structure State where
  db : DB
  marker : Option Marker
deriving Repr, DecidableEq

/-- Datastore right after `init_db`: empty tables, default daily goal 8. -/
def initialDB : DB := { sessions := [], tasks := [], config := [("daily_goal", "8")] }

/-- `args.duration or 25`: Python falsy (absent or 0) falls back to 25. -/
def durationOr25 (d : Option Int) : Int :=
  match d with
  | none => 25
  | some v => if v = 0 then 25 else v

/-- `if args.duration and args.duration > 0`: the countdown (timed) path. -/
def timedMode (d : Option Int) : Bool :=
  match d with
  | none => false
  | some v => !(v = 0) && decide (0 < v)

/-- ASCII whitespace stripped around numeric text (Python `int()` and
SQLite text-to-number conversion alike). -/
def isPySpace (c : Char) : Bool :=
  c = ' ' || c = '\t' || c = '\n' || c = '\r' || c = '\x0b' || c = '\x0c'

def digitVal (c : Char) : Nat := c.toNat - '0'.toNat

/-- A plain non-empty run of decimal digits (no underscores). -/
def parseDigits (cs : List Char) : Option Nat :=
  match cs with
  | [] => none
  | _ :: _ =>
    if cs.all (fun c => c.isDigit) then
      some (cs.foldl (fun acc c => acc * 10 + digitVal c) 0)
    else none

/-- SQLite conversion of a TEXT bind for an `INTEGER PRIMARY KEY` column:
the text is accepted exactly when it is a well-formed integer literal
(optional surrounding whitespace, optional sign, digits); otherwise the
INSERT raises `sqlite3.IntegrityError: datatype mismatch`. -/
def sqliteIntegerLiteral? (s : String) : Option Int :=
  let cs := ((s.toList.dropWhile isPySpace).reverse.dropWhile isPySpace).reverse
  match cs with
  | [] => none
  | c :: rest =>
    if c = '+' then (parseDigits rest).map (fun n => (n : Int))
    else if c = '-' then (parseDigits rest).map (fun n => -(n : Int))
    else (parseDigits (c :: rest)).map (fun n => (n : Int))

/-- `cmd_start`.  `init_db` declares `sessions.id INTEGER PRIMARY KEY
AUTOINCREMENT`, but the INSERT binds the TEXT id `session_<ms>` into that
column; SQLite accepts such a bind only for a well-formed integer literal
and otherwise raises `sqlite3.IntegrityError: datatype mismatch`.  The
exception is uncaught and fires before the marker file is written, and the
implicit transaction (which also holds the optional new-task INSERT) is
never committed, so on the error path the datastore and marker are
unchanged — modelled as `Except.error` carrying the exception.  The ok
branch records the writes the code would perform if the bound id were
acceptable; with the ids the program generates it is never taken.
`nowMs` is the millisecond clock used for id generation, `now` the second
clock, `date` the calendar date string of `now`. -/
def cmdStart (taskName : Option String) (d : Option Int) (now : Int)
    (nowMs : Nat) (date : String) (s : State) : Except String State :=
  let sessionId := "session_" ++ toString nowMs
  if (sqliteIntegerLiteral? sessionId).isSome then
    let resolved : Option String × List Task :=
      match taskName with
      | none => (none, s.db.tasks)
      | some nm =>
        match s.db.tasks.find? (fun t => t.name = nm) with
        | some t => (some t.id, s.db.tasks)
        | none =>
          let tid := "task_" ++ toString nowMs
          let newTask : Task :=
            { id := tid, name := nm, completed_pomodoros := 0, total_minutes := 0 }
          (some tid, s.db.tasks ++ [newTask])
    let planned := durationOr25 d
    let sess : Session :=
      { id := sessionId, start_time := now, end_time := none,
        planned_duration := planned, actual_duration := none,
        completed := false, task_id := resolved.1,
        interruption_reason := none, date := date }
    Except.ok
      { db := { sessions := s.db.sessions ++ [sess], tasks := resolved.2,
                config := s.db.config },
        marker := some { id := sessionId, start_time := now, duration := planned,
                         task_id := resolved.1, task_name := taskName } }
  else
    Except.error "sqlite3.IntegrityError: datatype mismatch"

/-- `int((now - start_time).total_seconds() / 60)`: truncation toward zero. -/
def actualDuration (startTime now : Int) : Int := (now - startTime).tdiv 60

/-- `UPDATE sessions SET end_time, actual_duration, completed = 1 WHERE id`. -/
def updateSessionComplete (rows : List Session) (sid : String) (now dur : Int) :
    List Session :=
  rows.map (fun r => if r.id = sid then
    { r with end_time := some now, actual_duration := some dur,
             completed := true } else r)

/-- `UPDATE tasks SET completed_pomodoros = completed_pomodoros + 1,
total_minutes = total_minutes + ? WHERE id`. -/
def updateTaskOnComplete (tasks : List Task) (tid : String) (dur : Int) :
    List Task :=
  tasks.map (fun t => if t.id = tid then
    { t with completed_pomodoros := t.completed_pomodoros + 1,
             total_minutes := t.total_minutes + dur } else t)

/-- `cmd_complete`.  The Bool is `true` when the "no active session" guard
fired (message printed, nothing else happens). -/
def cmdComplete (now : Int) (s : State) : State × Bool :=
  match s.marker with
  | none => (s, true)
  | some m =>
    let dur := actualDuration m.start_time now
    let sessions := updateSessionComplete s.db.sessions m.id now dur
    let tasks :=
      match m.task_id with
      | some tid => updateTaskOnComplete s.db.tasks tid dur
      | none => s.db.tasks
    ({ db := { sessions := sessions, tasks := tasks, config := s.db.config },
       marker := none }, false)

/-- `args.reason or "Unknown"`. -/
def reasonOrUnknown (r : Option String) : String :=
  match r with
  | none => "Unknown"
  | some v => if v = "" then "Unknown" else v

/-- `cmd_interrupt`.  The Bool is `true` when the "no active session" guard
fired. -/
def cmdInterrupt (reason : Option String) (now : Int) (s : State) :
    State × Bool :=
  match s.marker with
  | none => (s, true)
  | some m =>
    let dur := actualDuration m.start_time now
    let sessions := s.db.sessions.map (fun r => if r.id = m.id then
      { r with end_time := some now, actual_duration := some dur,
               completed := false,
               interruption_reason := some (reasonOrUnknown reason) } else r)
    ({ db := { sessions := sessions, tasks := s.db.tasks,
               config := s.db.config }, marker := none }, false)

/-- `INSERT OR REPLACE INTO config (key, value)`: key stays unique. -/
def upsertConfig (cfg : List (String × String)) (k v : String) :
    List (String × String) :=
  if (cfg.find? (fun p => p.1 = k)).isSome then
    cfg.map (fun p => if p.1 = k then (k, v) else p)
  else cfg ++ [(k, v)]

/-- `cmd_config daily_goal`: `if args.value:` writes only a truthy
(non-empty, present) value, stored as-is with no validation. -/
def cmdConfigDailyGoal (value : Option String) (db : DB) : DB :=
  match value with
  | none => db
  | some v =>
    if v = "" then db
    else { db with config := upsertConfig db.config "daily_goal" v }

/-- `SELECT value FROM config WHERE key = 'daily_goal'`, first row. -/
def getDailyGoalRaw (db : DB) : Option String :=
  (db.config.find? (fun p => p.1 = "daily_goal")).map Prod.snd

/-- Digit run with optional single underscores strictly between digits,
continuing an already-seen first digit: `(["_"] digit)*`. -/
def digitsUnderscore : List Char → Nat → Option Nat
  | [], acc => some acc
  | '_' :: c :: rest, acc =>
    if c.isDigit then digitsUnderscore rest (acc * 10 + digitVal c) else none
  | c :: rest, acc =>
    if c.isDigit then digitsUnderscore rest (acc * 10 + digitVal c) else none

/-- `digit (["_"] digit)*`: at least one digit, no leading underscore. -/
def parseDigitsU (cs : List Char) : Option Nat :=
  match cs with
  | [] => none
  | c :: rest =>
    if c.isDigit then digitsUnderscore rest (digitVal c) else none

/-- Python `int(s)` on an ASCII string: optional surrounding whitespace,
optional sign, then a digit run with underscores between digits; `none`
models the ValueError raised otherwise. -/
def pyParseInt (s : String) : Option Int :=
  let cs := ((s.toList.dropWhile isPySpace).reverse.dropWhile isPySpace).reverse
  match cs with
  | '+' :: rest => (parseDigitsU rest).map (fun n => (n : Int))
  | '-' :: rest => (parseDigitsU rest).map (fun n => -(n : Int))
  | rest => (parseDigitsU rest).map (fun n => (n : Int))

/-- Python `int(x)` on a float/rational: truncation toward zero. -/
def ratTrunc (q : ℚ) : Int := q.num.tdiv (q.den : Int)

/-- `SELECT ... WHERE date = ? AND completed = 1`. -/
def completedSessions (db : DB) (date : String) : List Session :=
  db.sessions.filter (fun r => r.date = date && r.completed)

/-- `SELECT ... WHERE date = ? AND completed = 0 AND interruption_reason IS
NOT NULL`. -/
def interruptedSessions (db : DB) (date : String) : List Session :=
  db.sessions.filter (fun r =>
    r.date = date && !r.completed && r.interruption_reason.isSome)

/-- `SUM(actual_duration)` (SQL SUM skips NULLs; `or 0` on no rows). -/
def sumActual (rows : List Session) : Int :=
  (rows.map (fun r => r.actual_duration.getD 0)).sum

/-- What `cmd_today` prints, as data. -/
structure TodayReport where
  completed_count : Nat
  total_minutes : Int
  interrupted_count : Nat
  interrupted_minutes : Int
  goal : Int
  filled : Int
deriving Repr, DecidableEq

/-- `cmd_today`.  The error cases model the uncaught Python exceptions:
ValueError from `int(goal_result[0])` on a malformed stored goal, and
ZeroDivisionError from `completed_count / daily_goal` when the stored goal
parses to 0.  `filled = int(20 * min(completed_count / daily_goal, 1.0))`,
with the float arithmetic modelled exactly. -/
def cmdToday (db : DB) (today : String) : Except String TodayReport :=
  let c := (completedSessions db today).length
  let tm := sumActual (completedSessions db today)
  let ic := (interruptedSessions db today).length
  let im := sumActual (interruptedSessions db today)
  let goalE : Except String Int :=
    match getDailyGoalRaw db with
    | none => Except.ok 8
    | some v =>
      match pyParseInt v with
      | none => Except.error "ValueError"
      | some g => Except.ok g
  match goalE with
  | Except.error e => Except.error e
  | Except.ok g =>
    if g = 0 then Except.error "ZeroDivisionError"
    else
      let progress : ℚ := min ((c : ℚ) / (g : ℚ)) 1
      Except.ok { completed_count := c, total_minutes := tm,
                  interrupted_count := ic, interrupted_minutes := im,
                  goal := g, filled := ratTrunc (20 * progress) }

/-- The five grid markers of `cmd_heatmap`. -/
inductive HeatMarker
  | goalAchieved
  | halfway
  | started
  | noData
  | noSession
deriving Repr, DecidableEq

/-- The in-month cell classification in `cmd_heatmap`: `inMap` is
`date_str in date_map` (the day has completed sessions), `count` that
day's completed count.  `daily_goal * 0.5` is exact in binary floating
point, so the comparison is the exact rational one. -/
def heatCell (dailyGoal : Int) (inMap : Bool) (count : Nat) : HeatMarker :=
  if inMap then
    if dailyGoal ≤ (count : Int) then .goalAchieved
    else if (dailyGoal : ℚ) * (0.5 : ℚ) ≤ (count : ℚ) then .halfway
    else if 0 < count then .started
    else .noData
  else .noSession

/-- Intensity order of the markers, for monotonicity statements. -/
def heatRank : HeatMarker → Nat
  | .noSession => 0
  | .noData => 0
  | .started => 1
  | .halfway => 2
  | .goalAchieved => 3

/-- `cmd_week`'s accumulation over the GROUP BY rows
`(date, COUNT(*), SUM(actual_duration))`:
`total_pomodoros += count; total_minutes += minutes or 0`. -/
def weekTotals (rows : List (String × Nat × Option Int)) : Nat × Int :=
  rows.foldl (fun acc r => (acc.1 + r.2.1, acc.2 + r.2.2.getD 0)) (0, 0)

/-- `total_pomodoros / 7` (Python true division, exact here). -/
def weekDailyAverage (rows : List (String × Nat × Option Int)) : ℚ :=
  ((weekTotals rows).1 : ℚ) / 7

/-- One flat record of the JSON export (`bool(row[5])` for completed). -/
structure ExportRecord where
  id : String
  start_time : Int
  end_time : Option Int
  planned_duration : Int
  actual_duration : Option Int
  completed : Bool
  task_id : Option String
  interruption_reason : Option String
  date : String
deriving Repr, DecidableEq

def toExportRecord (r : Session) : ExportRecord :=
  { id := r.id, start_time := r.start_time, end_time := r.end_time,
    planned_duration := r.planned_duration,
    actual_duration := r.actual_duration, completed := r.completed,
    task_id := r.task_id, interruption_reason := r.interruption_reason,
    date := r.date }

/-- `ORDER BY start_time DESC`: most recent start first. -/
def startDesc (a b : Session) : Prop := b.start_time ≤ a.start_time

instance : DecidableRel startDesc :=
  fun a b => inferInstanceAs (Decidable (b.start_time ≤ a.start_time))

instance : IsTotal Session startDesc :=
  ⟨fun a b => le_total b.start_time a.start_time⟩

instance : IsTrans Session startDesc :=
  ⟨fun _ _ _ hab hbc => le_trans hbc hab⟩

/-- `cmd_export --format json`: every session row as a flat record,
ordered by start time descending. -/
def cmdExport (db : DB) : List ExportRecord :=
  (List.insertionSort startDesc db.sessions).map toExportRecord

/-- Program state right after `init_db` with no marker file. -/
def emptyState : State := { db := initialDB, marker := none }

/-- The task-table effect of N session completions tied to task `tid`
whose computed actual durations are `durs` (each completion runs the
`UPDATE tasks` statement of `cmd_complete` once). -/
def applyCompletions (durs : List Int) (tid : String) (tasks : List Task) :
    List Task :=
  durs.foldl (fun ts dur => updateTaskOnComplete ts tid dur) tasks

end Pomodoro

namespace Pomodoro

/-- Dropping a prefix cannot eat past an element the predicate rejects at
the end of the list. -/
lemma dropWhile_append_last {α : Type} (p : α → Bool) (xs : List α) (a : α)
    (h : p a = false) :
    List.dropWhile p (xs ++ [a]) = List.dropWhile p xs ++ [a] := by
  induction xs with
  | nil => simp [List.dropWhile, h]
  | cons x xs ih =>
    by_cases hx : p x
    · simp [List.dropWhile_cons, hx, ih]
    · simp [List.dropWhile_cons, hx]

/-- The generated session id `session_<ms>` is never a well-formed integer
literal: after whitespace stripping it still starts with the letter `s`. -/
lemma sessionId_not_integer (nowMs : Nat) :
    sqliteIntegerLiteral? ("session_" ++ toString nowMs) = none := by
  have hs : isPySpace 's' = false := by decide
  have h0 : ("session_" ++ toString nowMs).toList
      = 's' :: ("ession_".toList ++ (toString nowMs).toList) := by
    simp [String.toList]
  have h1 : ("session_" ++ toString nowMs).toList.dropWhile isPySpace
      = 's' :: ("ession_".toList ++ (toString nowMs).toList) := by
    rw [h0, List.dropWhile_cons, hs]
    simp
  have h2 : ((("session_" ++ toString nowMs).toList.dropWhile
        isPySpace).reverse.dropWhile isPySpace).reverse
      = 's' :: ((("ession_".toList ++
          (toString nowMs).toList).reverse.dropWhile isPySpace).reverse) := by
    rw [h1, List.reverse_cons, dropWhile_append_last _ _ _ hs,
      List.reverse_append]
    simp
  unfold sqliteIntegerLiteral?
  rw [h2]
  simp [parseDigits]

/-- `cmd_start` always aborts with the IntegrityError, whatever the
arguments and state: the bound TEXT id is never integer-convertible. -/
lemma cmdStart_error (taskName : Option String) (d : Option Int) (now : Int)
    (nowMs : Nat) (date : String) (s : State) :
    cmdStart taskName d now nowMs date s =
      Except.error "sqlite3.IntegrityError: datatype mismatch" := by
  simp [cmdStart, sessionId_not_integer nowMs]

/-- C1 (code-bug evidence): every invocation of `start` raises
`sqlite3.IntegrityError: datatype mismatch` at the session INSERT (TEXT id
`session_<ms>` bound into `id INTEGER PRIMARY KEY AUTOINCREMENT`), before
any session row or marker file is created, so the claimed lifecycle — start
creating the marker and an open row — can never begin. -/
theorem c1_start_datatype_mismatch (taskName : Option String) (d : Option Int)
    (now : Int) (nowMs : Nat) (date : String) (s : State) :
    cmdStart taskName d now nowMs date s =
      Except.error "sqlite3.IntegrityError: datatype mismatch" :=
  cmdStart_error taskName d now nowMs date s

end Pomodoro

namespace Pomodoro

/-- C3: with no current-session marker, `complete` and `interrupt` leave
the whole state unchanged — in particular each of the sessions, tasks and
config tables — and only report "no active session" (the guard flag). -/
theorem c3_noop_without_marker (now : Int) (reason : Option String)
    (s : State) (h : s.marker = none) :
    (cmdComplete now s).1 = s ∧ (cmdComplete now s).2 = true ∧
    (cmdInterrupt reason now s).1 = s ∧ (cmdInterrupt reason now s).2 = true ∧
    ((cmdComplete now s).1).db.sessions = s.db.sessions ∧
    ((cmdComplete now s).1).db.tasks = s.db.tasks ∧
    ((cmdComplete now s).1).db.config = s.db.config ∧
    ((cmdInterrupt reason now s).1).db.sessions = s.db.sessions ∧
    ((cmdInterrupt reason now s).1).db.tasks = s.db.tasks ∧
    ((cmdInterrupt reason now s).1).db.config = s.db.config := by
  refine ⟨?_, ?_, ?_, ?_, ?_, ?_, ?_, ?_, ?_, ?_⟩
  all_goals simp [cmdComplete, cmdInterrupt, h]

/-- Witness for C3 at the fresh state (which has no marker). -/
theorem c3_noop_without_marker_witness :
    (cmdComplete 0 emptyState).1 = emptyState ∧
    (cmdComplete 0 emptyState).2 = true ∧
    (cmdInterrupt none 0 emptyState).1 = emptyState ∧
    (cmdInterrupt none 0 emptyState).2 = true ∧
    ((cmdComplete 0 emptyState).1).db.sessions = emptyState.db.sessions ∧
    ((cmdComplete 0 emptyState).1).db.tasks = emptyState.db.tasks ∧
    ((cmdComplete 0 emptyState).1).db.config = emptyState.db.config ∧
    ((cmdInterrupt none 0 emptyState).1).db.sessions = emptyState.db.sessions ∧
    ((cmdInterrupt none 0 emptyState).1).db.tasks = emptyState.db.tasks ∧
    ((cmdInterrupt none 0 emptyState).1).db.config = emptyState.db.config :=
  c3_noop_without_marker 0 none emptyState rfl

/-- C4 (code-bug evidence): the run "start (no session active) then
complete" on the fresh state never reaches the claimed outcome: `start`
aborts with the IntegrityError before inserting a row or writing the
marker, so `complete` hits the no-marker guard, the state is unchanged,
and no session row exists at all — in particular none with
`completed = true`. -/
theorem c4_start_then_complete_crash :
    cmdStart none (some 0) 0 0 "2026-10-12" emptyState =
      Except.error "sqlite3.IntegrityError: datatype mismatch" ∧
    (cmdComplete 61 emptyState).1 = emptyState ∧
    (cmdComplete 61 emptyState).2 = true ∧
    ((cmdComplete 61 emptyState).1).db.sessions.filter
      (fun r => r.completed) = [] :=
  ⟨cmdStart_error none (some 0) 0 0 "2026-10-12" emptyState, rfl, rfl, rfl⟩

end Pomodoro

namespace Pomodoro

/-- One completion step on the task table, described pointwise. -/
lemma updateTaskOnComplete_map (tasks : List Task) (tid : String) (dur : Int) :
    updateTaskOnComplete tasks tid dur = tasks.map (fun t =>
      if t.id = tid then
        { t with completed_pomodoros := t.completed_pomodoros + 1,
                 total_minutes := t.total_minutes + dur } else t) := rfl

/-- C5: N completions tied to task `tid` with actual durations `durs` add
exactly `N = durs.length` completed pomodoros and `durs.sum` minutes to
every task with id `tid` and change no other task; and the task table is
never changed by `interrupt`, and is changed by `complete` exactly through
one `updateTaskOnComplete` step when the marker carries a task id. -/
theorem c5_task_totals :
    (∀ (durs : List Int) (tid : String) (tasks : List Task),
      applyCompletions durs tid tasks = tasks.map (fun t =>
        if t.id = tid then
          { t with completed_pomodoros := t.completed_pomodoros + durs.length,
                   total_minutes := t.total_minutes + durs.sum } else t)) ∧
    (∀ reason now s, ((cmdInterrupt reason now s).1).db.tasks = s.db.tasks) ∧
    (∀ now s m tid, s.marker = some m → m.task_id = some tid →
      ((cmdComplete now s).1).db.tasks =
        updateTaskOnComplete s.db.tasks tid (actualDuration m.start_time now)) := by
  refine ⟨?_, ?_, ?_⟩
  · intro durs
    induction durs with
    | nil =>
      intro tid tasks
      have hmap : tasks.map (fun t =>
          if t.id = tid then
            { t with completed_pomodoros := t.completed_pomodoros + List.length ([] : List Int),
                     total_minutes := t.total_minutes + List.sum ([] : List Int) }
          else t) = tasks := by
        rw [show tasks = tasks.map id from (List.map_id tasks).symm,
          List.map_map]
        refine List.map_congr_left (fun t _ => ?_)
        by_cases h : t.id = tid
        · simp [h]
          rw [← h]
        · simp [h]
      rw [hmap]
      rfl
    | cons dur durs ih =>
      intro tid tasks
      have step : applyCompletions (dur :: durs) tid tasks =
          applyCompletions durs tid (updateTaskOnComplete tasks tid dur) := rfl
      rw [step, ih, updateTaskOnComplete_map, List.map_map]
      refine List.map_congr_left (fun t _ => ?_)
      by_cases h : t.id = tid
      all_goals simp [h, Task.mk.injEq]
      all_goals omega
  · intro reason now s
    cases h : s.marker <;> simp [cmdInterrupt, h]
  · intro now s m tid hm htid
    simp [cmdComplete, hm, htid]

/-- Witness for C5 at concrete inputs: two completions of durations 25 and
30 on a one-task table, an interrupt on the fresh state, and a complete
with a marker carrying a task id. -/
theorem c5_task_totals_witness :
    applyCompletions [25, 30] "t1"
        [{ id := "t1", name := "Writing", completed_pomodoros := 0,
           total_minutes := 0 }] =
      [{ id := "t1", name := "Writing", completed_pomodoros := 2,
         total_minutes := 55 }] := by
  rw [c5_task_totals.1 [25, 30] "t1" _]
  decide

end Pomodoro

namespace Pomodoro

/-- Python `int()` truncation agrees with the floor on non-negatives. -/
lemma ratTrunc_eq_floor (q : ℚ) (hq : 0 ≤ q) : ratTrunc q = ⌊q⌋ := by
  unfold ratTrunc
  rw [Rat.floor_def]
  exact Int.tdiv_eq_ediv (Rat.num_nonneg.mpr hq) (by positivity)

/-- C6: whenever the stored daily goal parses to a positive integer `g`,
`today()` succeeds, reports as completed count exactly the number of
session rows with that date and `completed = true`, and fills
`floor(20 * min(count/goal, 1))` cells of the 20-cell progress bar. -/
theorem c6_today_report (db : DB) (date : String) (g : Int) (v : String)
    (hv : getDailyGoalRaw db = some v) (hp : pyParseInt v = some g)
    (hg : 0 < g) :
    ∃ rep : TodayReport, cmdToday db date = Except.ok rep ∧
      rep.goal = g ∧
      rep.completed_count =
        (db.sessions.filter (fun r => r.date = date && r.completed)).length ∧
      rep.filled = ⌊(20 : ℚ) * min ((rep.completed_count : ℚ) / (g : ℚ)) 1⌋ := by
  have hgne : g ≠ 0 := by omega
  have hc0 : (0:ℚ) ≤ (((completedSessions db date).length : ℚ) / (g : ℚ)) :=
    div_nonneg (by positivity) (by exact_mod_cast hg.le)
  have hnn : (0:ℚ) ≤
      (20:ℚ) * min (((completedSessions db date).length : ℚ) / (g : ℚ)) 1 :=
    mul_nonneg (by norm_num) (le_min hc0 zero_le_one)
  refine ⟨{ completed_count := (completedSessions db date).length,
            total_minutes := sumActual (completedSessions db date),
            interrupted_count := (interruptedSessions db date).length,
            interrupted_minutes := sumActual (interruptedSessions db date),
            goal := g,
            filled := ratTrunc ((20:ℚ) *
              min (((completedSessions db date).length : ℚ) / (g : ℚ)) 1) },
    ?_, rfl, rfl, ?_⟩
  · simp [cmdToday, hv, hp, hgne]
  · exact ratTrunc_eq_floor _ hnn

/-- Witness for C6 on the fresh datastore (stored goal "8"). -/
theorem c6_today_report_witness :
    ∃ rep : TodayReport, cmdToday initialDB "2026-10-12" = Except.ok rep ∧
      rep.goal = 8 ∧
      rep.completed_count =
        (initialDB.sessions.filter
          (fun r => r.date = "2026-10-12" && r.completed)).length ∧
      rep.filled = ⌊(20 : ℚ) * min ((rep.completed_count : ℚ) / ((8:Int) : ℚ)) 1⌋ :=
  c6_today_report initialDB "2026-10-12" 8 "8" rfl (by decide) (by decide)

/-- Replacing the value at key `k` makes lookup of `k` find the new pair. -/
lemma find?_map_replace (l : List (String × String)) (k v : String)
    (h : (l.find? (fun p => p.1 = k)).isSome = true) :
    (l.map (fun p => if p.1 = k then (k, v) else p)).find? (fun p => p.1 = k)
      = some (k, v) := by
  induction l with
  | nil => simp at h
  | cons p l ih =>
    by_cases hp : p.1 = k
    · simp [hp]
    · rw [List.find?_cons_of_neg _ (by simp [hp])] at h
      simp only [List.map_cons, if_neg hp]
      rw [List.find?_cons_of_neg _ (by simp [hp])]
      exact ih h

/-- After `INSERT OR REPLACE` of `(k, v)`, lookup of `k` yields `(k, v)`. -/
lemma find?_upsertConfig (cfg : List (String × String)) (k v : String) :
    (upsertConfig cfg k v).find? (fun p => p.1 = k) = some (k, v) := by
  unfold upsertConfig
  by_cases h : (cfg.find? (fun p => p.1 = k)).isSome = true
  · rw [if_pos h]
    exact find?_map_replace cfg k v h
  · rw [if_neg h, List.find?_append, Option.not_isSome_iff_eq_none.mp h]
    simp

/-- Setting the daily goal stores the raw string unchanged. -/
lemma getDailyGoalRaw_set (db : DB) (v : String) (hv : ¬ v = "") :
    getDailyGoalRaw (cmdConfigDailyGoal (some v) db) = some v := by
  simp [cmdConfigDailyGoal, hv, getDailyGoalRaw, find?_upsertConfig]

/-- C7 (amended): `config set daily_goal v` for any non-empty `v` succeeds
and stores `v` unchanged, and a subsequent `today()` succeeds iff the
stored value parses as an integer AND that integer is non-zero — a parse
failure raises ValueError at `int(...)`, while the valid literal "0"
raises ZeroDivisionError at `completed_count / daily_goal`. -/
theorem c7_config_no_validation (v : String) (db : DB) (date : String)
    (hv : ¬ v = "") :
    getDailyGoalRaw (cmdConfigDailyGoal (some v) db) = some v ∧
    ((cmdToday (cmdConfigDailyGoal (some v) db) date).isOk = true ↔
      ∃ g : Int, pyParseInt v = some g ∧ g ≠ 0) := by
  have hraw := getDailyGoalRaw_set db v hv
  refine ⟨hraw, ?_⟩
  cases hp : pyParseInt v with
  | none => simp [cmdToday, hraw, hp, Except.isOk, Except.toBool]
  | some g =>
    by_cases hg : g = 0
    · simp [cmdToday, hraw, hp, hg, Except.isOk, Except.toBool]
    · simp [cmdToday, hraw, hp, hg, Except.isOk, Except.toBool]

/-- Witness for C7 (amended) with the value "7". -/
theorem c7_config_no_validation_witness :
    getDailyGoalRaw (cmdConfigDailyGoal (some "7") initialDB) = some "7" ∧
    ((cmdToday (cmdConfigDailyGoal (some "7") initialDB) "2026-10-12").isOk = true ↔
      ∃ g : Int, pyParseInt "7" = some g ∧ g ≠ 0) :=
  c7_config_no_validation "7" initialDB "2026-10-12" (by decide)

/-- C7 counterexample: "0" IS a valid integer literal (it parses to 0),
yet after `config set daily_goal 0` the `today()` report still fails — at
the progress-ratio division, not at the parse. -/
theorem c7_counterexample :
    pyParseInt "0" = some 0 ∧
    cmdToday (cmdConfigDailyGoal (some "0") initialDB) "2026-10-12" =
      Except.error "ZeroDivisionError" := by
  constructor
  · decide
  · rfl

end Pomodoro

namespace Pomodoro

/-- `count >= daily_goal * 0.5` over the exact rationals is exactly
`goal ≤ 2 * count` over the integers. -/
lemma half_threshold_iff (g : Int) (n : Nat) :
    ((g:ℚ) * (0.5:ℚ) ≤ (n:ℚ)) ↔ (g ≤ 2 * (n : Int)) := by
  constructor
  · intro h
    have h2 : (g:ℚ) ≤ 2 * (n:ℚ) := by linarith
    exact_mod_cast h2
  · intro h
    have h2 : (g:ℚ) ≤ 2 * (n:ℚ) := by exact_mod_cast h
    linarith

/-- The heatmap cell as a pure integer-threshold cascade. -/
lemma heatCell_int_form (g : Int) (n : Nat) :
    heatCell g true n =
      (if g ≤ (n : Int) then HeatMarker.goalAchieved
       else if g ≤ 2 * (n : Int) then HeatMarker.halfway
       else if 0 < n then HeatMarker.started
       else HeatMarker.noData) := by
  unfold heatCell
  rw [if_pos rfl]
  by_cases h1 : g ≤ (n:Int)
  · rw [if_pos h1, if_pos h1]
  · rw [if_neg h1, if_neg h1]
    by_cases h2 : g ≤ 2*(n:Int)
    · rw [if_pos ((half_threshold_iff g n).mpr h2), if_pos h2]
    · rw [if_neg (fun hq => h2 ((half_threshold_iff g n).mp hq)), if_neg h2]

/-- C2 (amended): for a positive integer goal `g`, a day outside the date
map is the no-session filler; among in-map days the code's thresholds are
"started" iff `0 < c` and `2c < g`, "halfway" iff `2c ≥ g` and `c < g`
(i.e. the halfway threshold is `ceil(g/2)`, not the floor `g // 2` printed
in the legend), and "goal achieved" iff `c ≥ g`; the assignment is
monotonic in the count. -/
theorem c2_heat_markers (g : Int) (c c' : Nat) (hg : 0 < g) :
    heatCell g false c = HeatMarker.noSession ∧
    (heatCell g true c = HeatMarker.goalAchieved ↔ g ≤ (c : Int)) ∧
    (heatCell g true c = HeatMarker.halfway ↔
      g ≤ 2 * (c : Int) ∧ (c : Int) < g) ∧
    (heatCell g true c = HeatMarker.started ↔
      0 < c ∧ 2 * (c : Int) < g) ∧
    (heatCell g true c = HeatMarker.noData ↔ c = 0) ∧
    (c ≤ c' → heatRank (heatCell g true c) ≤ heatRank (heatCell g true c')) := by
  refine ⟨rfl, ?_, ?_, ?_, ?_, ?_⟩
  · rw [heatCell_int_form]
    split_ifs with h1 h2 h3
    all_goals simp
    all_goals omega
  · rw [heatCell_int_form]
    split_ifs with h1 h2 h3
    all_goals simp
    all_goals omega
  · rw [heatCell_int_form]
    split_ifs with h1 h2 h3
    all_goals simp
    all_goals omega
  · rw [heatCell_int_form]
    split_ifs with h1 h2 h3
    all_goals simp
    all_goals omega
  · intro hcc
    rw [heatCell_int_form, heatCell_int_form]
    split_ifs with h1 h2 h3 h4 h5 h6 h7 h8
    all_goals simp only [heatRank]
    all_goals omega

/-- Witness for C2 (amended) at goal 5, counts 1 and 3. -/
theorem c2_heat_markers_witness :
    heatCell 5 false 1 = HeatMarker.noSession ∧
    (heatCell 5 true 1 = HeatMarker.goalAchieved ↔ (5:Int) ≤ ((1:Nat) : Int)) ∧
    (heatCell 5 true 1 = HeatMarker.halfway ↔
      (5:Int) ≤ 2 * ((1:Nat) : Int) ∧ ((1:Nat) : Int) < 5) ∧
    (heatCell 5 true 1 = HeatMarker.started ↔
      0 < (1:Nat) ∧ 2 * ((1:Nat) : Int) < 5) ∧
    (heatCell 5 true 1 = HeatMarker.noData ↔ (1:Nat) = 0) ∧
    ((1:Nat) ≤ (3:Nat) →
      heatRank (heatCell 5 true 1) ≤ heatRank (heatCell 5 true 3)) :=
  c2_heat_markers 5 1 3 (by decide)

/-- C2 counterexample: with goal 3 and count 1 the claim's floor-division
band `[3 // 2, 3) = [1, 3)` contains 1, so the claim assigns "halfway",
but the code (threshold `count >= 3 * 0.5 = 1.5`) assigns "started". -/
theorem c2_counterexample :
    (3 : Int) / 2 ≤ ((1:Nat) : Int) ∧ ((1:Nat) : Int) < 3 ∧
    heatCell 3 true 1 = HeatMarker.started ∧
    ¬ heatCell 3 true 1 = HeatMarker.halfway := by
  have hs : heatCell 3 true 1 = HeatMarker.started := by
    unfold heatCell
    norm_num
  refine ⟨by decide, by decide, hs, ?_⟩
  rw [hs]
  decide

/-- C8: the JSON export of the fresh (zero-session) datastore is the empty
list, and for every datastore the export lists exactly the session rows as
flat records, most recent start time first. -/
theorem c8_export_json (db : DB) :
    cmdExport initialDB = [] ∧
    List.Pairwise (fun a b : ExportRecord => b.start_time ≤ a.start_time)
      (cmdExport db) ∧
    (cmdExport db).Perm (db.sessions.map toExportRecord) := by
  refine ⟨rfl, ?_, ?_⟩
  · exact List.Pairwise.map toExportRecord (fun a b h => h)
      (List.sorted_insertionSort startDesc db.sessions)
  · exact (List.perm_insertionSort startDesc db.sessions).map toExportRecord

/-- The first component of the weekly fold is the plain sum of counts. -/
lemma weekTotals_fst (rows : List (String × Nat × Option Int)) (a : Nat)
    (b : Int) :
    (rows.foldl (fun acc r => (acc.1 + r.2.1, acc.2 + r.2.2.getD 0)) (a, b)).1 =
      a + (rows.map (fun r => r.2.1)).sum := by
  induction rows generalizing a b with
  | nil => simp
  | cons r rows ih =>
    simp only [List.foldl_cons, List.map_cons, List.sum_cons]
    rw [ih]
    omega

/-- C9: `week()`'s daily average is the week's total completed count
divided by exactly 7, whatever the rows are; two row sets with the same
total (however many days each covers) get the same average. -/
theorem c9_week_fixed_divisor (rows rows' : List (String × Nat × Option Int)) :
    weekDailyAverage rows =
      ((((rows.map (fun r => r.2.1)).sum : ℕ) : ℚ)) / 7 ∧
    ((rows.map (fun r => r.2.1)).sum = (rows'.map (fun r => r.2.1)).sum →
      weekDailyAverage rows = weekDailyAverage rows') := by
  have h1 : ∀ l : List (String × Nat × Option Int),
      weekDailyAverage l = ((((l.map (fun r => r.2.1)).sum : ℕ) : ℚ)) / 7 := by
    intro l
    unfold weekDailyAverage weekTotals
    rw [weekTotals_fst l 0 0]
    norm_num
  refine ⟨h1 rows, fun h => ?_⟩
  rw [h1 rows, h1 rows', h]

/-- Witness for C9: a two-day week and a one-day week with the same total
have the same daily average. -/
theorem c9_week_fixed_divisor_witness :
    weekDailyAverage [("2026-10-05", 3, none), ("2026-10-06", 4, some 100)] =
      weekDailyAverage [("2026-10-07", 7, none)] :=
  (c9_week_fixed_divisor
    [("2026-10-05", 3, none), ("2026-10-06", 4, some 100)]
    [("2026-10-07", 7, none)]).2 (by decide)

/-- C10 (code-bug evidence): with a falsy duration (0 or absent) the code
does compute the default 25 (`args.duration or 25`) for both the INSERT
parameter and the marker field, and the countdown condition
(`args.duration and args.duration > 0`) is false — but `start` raises the
IntegrityError at the session INSERT before either value is stored, so the
claimed stored planned_duration = 25 and marker duration = 25 are never
observable. -/
theorem c10_falsy_duration_crash :
    durationOr25 (some 0) = 25 ∧ durationOr25 none = 25 ∧
    timedMode (some 0) = false ∧ timedMode none = false ∧
    cmdStart none (some 0) 0 0 "2026-10-12" emptyState =
      Except.error "sqlite3.IntegrityError: datatype mismatch" ∧
    cmdStart none none 0 0 "2026-10-12" emptyState =
      Except.error "sqlite3.IntegrityError: datatype mismatch" :=
  ⟨rfl, rfl, rfl, rfl,
    cmdStart_error none (some 0) 0 0 "2026-10-12" emptyState,
    cmdStart_error none none 0 0 "2026-10-12" emptyState⟩

end Pomodoro
